import Mathlib

/-!
Verification of the Hustlr booking backend core
(`backend/routes/bookings.py`, `backend/routes/whatsapp.py`).

The Python routes are shallowly embedded as pure Lean functions over an
explicit database state.  Modelling conventions:

* Mongo document `_id`s are modelled as `Nat`, drawn from a per-database
  fresh counter (`DB.nextId`); the Python `str(inserted_id)` conversion is
  the identity under this identification.
* `datetime` values are `(year, month, day, hour, minute)` tuples compared
  lexicographically; `datetime.utcnow()` / `datetime.now()` are a single
  `now` parameter per request (time does not advance inside one request).
* Python `float` provider ratings are modelled as exact rationals `ℚ`;
  `round(x, 2)` is modelled as rounding to an integer number of hundredths.
* A raised `HTTPException` is an `Except.error` carrying the error kind of
  its HTTP status code; an uncaught Python exception surfacing as HTTP 500
  (e.g. the `AttributeError` from the shadowed `status` name in
  `update_booking_status`) is `ApiError.internalError`.
* Each route returns `(Except ApiError result) × DB`: all mutations of the
  store performed before a raise are kept in the returned state.
* Python string primitives (`split`, `strip`, `startswith`, `in`) are
  re-implemented structurally over `String.data` so that concrete runs
  reduce inside the kernel.
-/

attribute [local semireducible] Rat.mul Rat.add Rat.sub Rat.inv

/-- Model of Python `str.split(sep)` for a one-character separator. -/
def splitCharAux (sep : Char) : List Char → List Char → List (List Char)
  | [], acc => [acc.reverse]
  | c :: cs, acc =>
    if c == sep then acc.reverse :: splitCharAux sep cs []
    else splitCharAux sep cs (c :: acc)

def pySplit (sep : Char) (s : String) : List String :=
  (splitCharAux sep s.data []).map (fun l => ⟨l⟩)

/-- Whitespace characters stripped by Python `str.strip()` (ASCII part). -/
def isPySpace (c : Char) : Bool :=
  c == ' ' || c == '\t' || c == '\n' || c == '\r' || c == '\x0b' || c == '\x0c'

/-- Model of Python `str.strip()`. -/
def pyStrip (s : String) : String :=
  ⟨((s.data.dropWhile isPySpace).reverse.dropWhile isPySpace).reverse⟩

def digitsToNat (l : List Char) : Nat :=
  l.foldl (fun n c => n * 10 + (c.toNat - 48)) 0

/-- Parse a nonempty all-digit string as a natural number. -/
def pyToNat? (s : String) : Option Nat :=
  if !s.data.isEmpty && s.data.all Char.isDigit then some (digitsToNat s.data)
  else none

/-- Python `x or default` on an optional string (`None` and `""` are
falsy). -/
def pyOrStr (o : Option String) (d : String) : String :=
  match o with
  | some s => if s == "" then d else s
  | none => d

/-- Python truthiness of an optional string: `None` and `""` are falsy. -/
def pyTruthy (o : Option String) : Bool :=
  match o with
  | some s => s != ""
  | none => false

/-- Calendar date, as produced by `datetime.strptime(s, "%Y-%m-%d").date()`. -/
structure Date where
  year : Nat
  month : Nat
  day : Nat
deriving DecidableEq

/-- Time of day, as produced by `datetime.strptime(s, "%H:%M").time()`. -/
structure Time where
  hour : Nat
  minute : Nat
deriving DecidableEq

/-- `datetime.combine(date, time)`. -/
structure DateTime where
  date : Date
  time : Time
deriving DecidableEq

/-- Lexicographic `datetime` comparison (`booking_datetime <= now`). -/
def dtLe (a b : DateTime) : Bool :=
  let ⟨⟨y1, m1, d1⟩, ⟨h1, n1⟩⟩ := a
  let ⟨⟨y2, m2, d2⟩, ⟨h2, n2⟩⟩ := b
  if y1 ≠ y2 then y1 < y2
  else if m1 ≠ m2 then m1 < m2
  else if d1 ≠ d2 then d1 < d2
  else if h1 ≠ h2 then h1 < h2
  else n1 ≤ n2

def isLeapYear (y : Nat) : Bool :=
  y % 4 == 0 && (y % 100 != 0 || y % 400 == 0)

def daysInMonth (y m : Nat) : Nat :=
  if m == 2 then (if isLeapYear y then 29 else 28)
  else if m == 4 || m == 6 || m == 9 || m == 11 then 30
  else 31

/-- Model of `datetime.strptime(s, "%Y-%m-%d")`: a 4-digit year, a 1–2
digit month in 1..12 and a 1–2 digit day valid for that month; anything
else raises `ValueError` (`none`). -/
def parseDate (s : String) : Option Date :=
  match pySplit '-' s with
  | [ys, ms, ds] =>
    match pyToNat? ys, pyToNat? ms, pyToNat? ds with
    | some y, some m, some d =>
      if ys.data.length == 4 && ms.data.length ≤ 2 && ds.data.length ≤ 2 &&
         1 ≤ m && m ≤ 12 && 1 ≤ d && d ≤ daysInMonth y m
      then some ⟨y, m, d⟩ else none
    | _, _, _ => none
  | _ => none

/-- Model of `datetime.strptime(s, "%H:%M")`: 1–2 digit hour ≤ 23 and
1–2 digit minute ≤ 59. -/
def parseTime (s : String) : Option Time :=
  match pySplit ':' s with
  | [hs, ms] =>
    match pyToNat? hs, pyToNat? ms with
    | some h, some m =>
      if hs.data.length ≤ 2 && ms.data.length ≤ 2 && h ≤ 23 && m ≤ 59
      then some ⟨h, m⟩ else none
    | _, _ => none
  | _ => none

/-- Booking lifecycle states (`BookingStatus` in `backend/models.py`). -/
inductive BookingStatus where
  | pending
  | confirmed
  | completed
  | cancelled
deriving DecidableEq

/-- The `valid_statuses` literals accepted by `update_booking_status`. -/
def parseStatus : String → Option BookingStatus
  | "pending" => some .pending
  | "confirmed" => some .confirmed
  | "completed" => some .completed
  | "cancelled" => some .cancelled
  | _ => none

/-- Error kinds, keyed by the HTTP status each route raises:
400 `invalidInput`, 403 `forbidden`, 404 `notFound`, 409 `conflict`,
500 `internalError` (an uncaught Python exception). -/
inductive ApiError where
  | invalidInput
  | forbidden
  | notFound
  | conflict
  | internalError
deriving DecidableEq

/-- Authenticated actor supplied by `get_current_user`. -/
inductive Role where
  | customer
  | provider
  | admin
deriving DecidableEq

structure UserCtx where
  id : String
  role : Role
deriving DecidableEq

/-- A document of the `bookings` collection. -/
structure BookingDoc where
  id : Nat
  customer_id : String
  provider_id : Nat
  service_type : String
  date : String
  time : String
  duration_hours : ℚ
  notes : Option String
  status : BookingStatus
  created_at : DateTime
  updated_at : DateTime
  cancellation_reason : Option String
deriving DecidableEq

/-- A document of the `service_providers` collection (the fields the
booking routes read or write; `rating`/`total_ratings` are optional to
model the `provider.get(..., default)` duck typing). -/
structure ProviderDoc where
  id : Nat
  user_id : String
  is_verified : Bool
  rating : Option ℚ
  total_ratings : Option Nat
  updated_at : Option DateTime
deriving DecidableEq

/-- A document of the `ratings` collection. -/
structure RatingDoc where
  id : Nat
  booking_id : Nat
  customer_id : String
  provider_id : Nat
  rating : Nat
  comment : Option String
  created_at : DateTime
deriving DecidableEq

/-- A document of the `conversations` collection. -/
structure ConvDoc where
  id : Nat
  user_id : String
  message : String
  timestamp : String
  source : String
  sender : String
  message_id : String
  processing_status : String
  response : Option String
  agent_success : Option Bool
  action_group : Option String
  agent_error : Option String
  processing_error : Option String
deriving DecidableEq

/-- The Mongo database: one list per collection (in insertion order, so
`find_one` is first-match) plus a fresh-`_id` counter. -/
structure DB where
  bookings : List BookingDoc
  service_providers : List ProviderDoc
  ratings : List RatingDoc
  conversations : List ConvDoc
  nextId : Nat
deriving DecidableEq

instance [DecidableEq ε] [DecidableEq α] : DecidableEq (Except ε α) := fun x y =>
  match x, y with
  | .ok a, .ok b =>
    match decEq a b with
    | isTrue h => isTrue (by rw [h])
    | isFalse h => isFalse (by intro hh; cases hh; exact h rfl)
  | .error a, .error b =>
    match decEq a b with
    | isTrue h => isTrue (by rw [h])
    | isFalse h => isFalse (by intro hh; cases hh; exact h rfl)
  | .ok _, .error _ => isFalse (by intro h; cases h)
  | .error _, .ok _ => isFalse (by intro h; cases h)

/-- `update_one`: rewrite the first document matching the filter. -/
def updateFirst (p : α → Bool) (f : α → α) : List α → List α
  | [] => []
  | x :: xs => if p x then f x :: xs else x :: updateFirst p f xs

/-- `BookingCreate` request body. -/
structure BookingCreateReq where
  customer_id : String
  provider_id : Nat
  service_type : String
  date : String
  time : String
  duration_hours : ℚ
  notes : Option String
deriving DecidableEq

/-- `BookingCancellationRequest` body.  The `action` literal is carried
exactly as the route receives it. -/
structure CancelReq where
  reason : Option String
  new_date : Option String
  new_time : Option String
  action : String
deriving DecidableEq

/-- `RatingCreate` body (`rating` already range-checked by pydantic). -/
structure RatingCreateReq where
  booking_id : Nat
  customer_id : String
  provider_id : Nat
  rating : Nat
  comment : Option String
deriving DecidableEq

/-- The conflict filter of `create_booking` lines 140–145: same provider,
same date, same time, status in `{"pending", "confirmed"}`. -/
def slotTaken (pid : Nat) (date tm : String) (k : BookingDoc) : Bool :=
  k.provider_id == pid && k.date == date && k.time == tm &&
  (k.status == .pending || k.status == .confirmed)

/-- `POST /bookings/` (`create_booking`, bookings.py lines 93–173). -/
def create_booking (u : UserCtx) (req : BookingCreateReq) (now : DateTime)
    (db : DB) : Except ApiError BookingDoc × DB :=
  if u.role != .customer then (.error .forbidden, db)
  else
    match db.service_providers.find? (fun p => p.id == req.provider_id && p.is_verified) with
    | none => (.error .notFound, db)
    | some _ =>
      match parseDate req.date, parseTime req.time with
      | some d, some t =>
        if dtLe ⟨d, t⟩ now then (.error .invalidInput, db)
        else if (db.bookings.find? (slotTaken req.provider_id req.date req.time)).isSome then
          (.error .conflict, db)
        else
          let doc : BookingDoc :=
            { id := db.nextId, customer_id := u.id, provider_id := req.provider_id,
              service_type := req.service_type, date := req.date, time := req.time,
              duration_hours := req.duration_hours, notes := req.notes,
              status := .pending, created_at := now, updated_at := now,
              cancellation_reason := none }
          (.ok doc, { db with bookings := db.bookings ++ [doc], nextId := db.nextId + 1 })
      | _, _ => (.error .invalidInput, db)

/-- `get_provider_ids_for_user` (bookings.py lines 458–463). -/
def get_provider_ids_for_user (db : DB) (uid : String) : List Nat :=
  (db.service_providers.filter (fun p => p.user_id == uid)).map (fun p => p.id)

/-- `PUT /bookings/{id}/status` (`update_booking_status`, lines 196–238).
The `status : str` query parameter shadows the imported fastapi `status`
module, so every `raise HTTPException(status_code=status.HTTP_...)` in
this route evaluates `status.HTTP_...` on a string and dies with
`AttributeError`; with no enclosing `try`, FastAPI surfaces it as HTTP
500 (`internalError`).  The current status of the booking is never
inspected. -/
def update_booking_status (booking_id : Nat) (st : String) (u : UserCtx)
    (db : DB) : Except ApiError Unit × DB :=
  match db.bookings.find? (fun b => b.id == booking_id) with
  | none => (.error .internalError, db)
  | some booking =>
    if u.role == .customer && booking.customer_id != u.id then
      (.error .internalError, db)
    else if u.role == .provider &&
        !(get_provider_ids_for_user db u.id).contains booking.provider_id then
      (.error .internalError, db)
    else
      match parseStatus st with
      | none => (.error .internalError, db)
      | some s =>
        let bs := updateFirst (fun b => b.id == booking_id)
          (fun b => { b with status := s }) db.bookings
        (.ok (), { db with bookings := bs })

/-- The re-fetch at the end of `cancel_booking` (lines 338–342): return
the first stored booking with the given `_id`; a miss would make
`updated_booking["_id"]` raise inside the generic `except`, surfacing as
HTTP 500. -/
def refetchBooking (booking_id : Nat) (db1 : DB) : Except ApiError BookingDoc × DB :=
  match db1.bookings.find? (fun b => b.id == booking_id) with
  | some d2 => (.ok d2, db1)
  | none => (.error .internalError, db1)

/-- `PUT /bookings/{id}/cancel` (`cancel_booking`, bookings.py lines
241–351).  The route never reads `request.action`: the reschedule branch
is taken exactly when `new_date` is *truthy* in the Python sense
(`if cancellation_request.new_date:`), so `None` and `""` both fall to
the cancellation branch.  Likewise `new_time` is used only when truthy
(`if cancellation_request.new_time:` for the parse and the update,
`new_time or booking["time"]` for the conflict filter), so an absent or
empty `new_time` defaults to the stored time, and `reason` is recorded
only when truthy.  After the update the booking is re-fetched; a miss
there would make `updated_booking["_id"]` blow up inside the generic
`except` and return HTTP 500. -/
def cancel_booking (booking_id : Nat) (req : CancelReq) (u : UserCtx)
    (now : DateTime) (db : DB) : Except ApiError BookingDoc × DB :=
  match db.bookings.find? (fun b => b.id == booking_id) with
  | none => (.error .notFound, db)
  | some booking =>
    if !(u.role == .customer && booking.customer_id == u.id) then
      (.error .forbidden, db)
    else if booking.status == .completed || booking.status == .cancelled then
      (.error .invalidInput, db)
    else
      if pyTruthy req.new_date then
        let nd := req.new_date.getD ""
        match parseDate nd with
        | none => (.error .invalidInput, db)
        | some d =>
          match parseTime (pyOrStr req.new_time booking.time) with
          | none => (.error .invalidInput, db)
          | some t =>
            if dtLe ⟨d, t⟩ now then (.error .invalidInput, db)
            else if (db.bookings.find? (fun k =>
                slotTaken booking.provider_id nd (pyOrStr req.new_time booking.time) k &&
                k.id != booking_id)).isSome then
              (.error .conflict, db)
            else
              let f : BookingDoc → BookingDoc := fun b =>
                { b with date := nd, time := pyOrStr req.new_time b.time,
                         status := .pending, updated_at := now,
                         cancellation_reason :=
                           if pyTruthy req.reason then req.reason
                           else b.cancellation_reason }
              let bs := updateFirst (fun b => b.id == booking_id) f db.bookings
              refetchBooking booking_id { db with bookings := bs }
      else
        let f : BookingDoc → BookingDoc := fun b =>
          { b with status := .cancelled, updated_at := now,
                   cancellation_reason :=
                     if pyTruthy req.reason then req.reason
                     else b.cancellation_reason }
        let bs := updateFirst (fun b => b.id == booking_id) f db.bookings
        refetchBooking booking_id { db with bookings := bs }

/-- Round a rational to the nearest integer (halves round up; Python's
banker's tie-breaking differs only on exact halves, which the arguments
below avoid): `⌊q + 1/2⌋` computed on the numerator/denominator pair. -/
def ratRound (q : ℚ) : ℤ := Int.fdiv (q.num * 2 + q.den) (2 * q.den)

/-- `round(x, 2)`: round to a whole number of hundredths. -/
def round2 (q : ℚ) : ℚ := mkRat (ratRound (q * 100)) 100

/-- The aggregate recurrence of `rate_booking` lines 428–430, applied to
the *stored* (already rounded) provider rating. -/
def provider_next_average (cr : ℚ) (ct : Nat) (score : Nat) : ℚ :=
  (cr * ct + score) / (ct + 1)

/-- `POST /bookings/{id}/rate` (`rate_booking`, bookings.py lines
354–455).  The rating document is inserted first; the provider aggregate
update is skipped silently when the provider document is absent. -/
def rate_booking (booking_id : Nat) (rd : RatingCreateReq) (u : UserCtx)
    (now : DateTime) (db : DB) : Except ApiError RatingDoc × DB :=
  match db.bookings.find? (fun b => b.id == booking_id) with
  | none => (.error .notFound, db)
  | some booking =>
    if !(u.role == .customer && booking.customer_id == u.id) then
      (.error .forbidden, db)
    else if booking.status != .completed then (.error .invalidInput, db)
    else if (db.ratings.find? (fun r => r.booking_id == booking_id)).isSome then
      (.error .conflict, db)
    else if rd.booking_id != booking_id then (.error .invalidInput, db)
    else if rd.customer_id != u.id then (.error .invalidInput, db)
    else if rd.provider_id != booking.provider_id then (.error .invalidInput, db)
    else
      let doc : RatingDoc :=
        { id := db.nextId, booking_id := rd.booking_id, customer_id := rd.customer_id,
          provider_id := rd.provider_id, rating := rd.rating, comment := rd.comment,
          created_at := now }
      let db1 : DB := { db with ratings := db.ratings ++ [doc], nextId := db.nextId + 1 }
      match db1.service_providers.find? (fun p => p.id == booking.provider_id) with
      | some p =>
        let ct := p.total_ratings.getD 0
        let newAvg := provider_next_average (p.rating.getD 0) ct rd.rating
        let ps := updateFirst (fun q => q.id == booking.provider_id)
          (fun q => { q with rating := some (round2 newAvg),
                             total_ratings := some (ct + 1),
                             updated_at := some now }) db1.service_providers
        (.ok doc, { db1 with service_providers := ps })
      | none => (.ok doc, db1)

/-- The fixed fallback reply of `backend/routes/whatsapp.py`. -/
def DEFAULT_ERROR_REPLY : String :=
  "Sorry, I am having trouble processing your request right now. " ++
  "Please try again in a moment."

/-- Incoming `WhatsAppMessage` payload. -/
structure WaMsg where
  sender : String
  message : String
  messageId : String
  timestamp : String
  source : String
deriving DecidableEq

/-- `WhatsAppResponse` returned to the Baileys bridge. -/
structure WaResponse where
  success : Bool
  message : Option String
  reply_text : Option String
  conversation_id : Option Nat
  message_id : Option String
  deduplicated : Bool
  error : Option String
deriving DecidableEq

/-- `AgentResponse` produced by `bedrock.agent.invoke_agent`. -/
structure AgentResponse where
  success : Bool
  response : Option String
  action_group : Option String
  error_message : Option String
deriving DecidableEq

/-- The Responder Adapter: `invoke_agent(text, session_id)` either
returns a structured response or raises (`Except.error` carries
`str(exc)`). -/
def AgentFun := String → String → Except String AgentResponse

/-- `_extract_phone_number` (whatsapp.py lines 48–49). -/
def extract_phone_number (sender : String) : String :=
  if sender.data.contains '@' then (pySplit '@' sender).headD sender else sender

/-- `_normalize_agent_reply` (whatsapp.py lines 52–69).
`jsonMessageField` abstracts `json.loads(raw)["message"]`: it returns
the `message` field when `raw` parses as JSON and that field is a
string, and `none` on a parse failure or a missing/non-string field. -/
def normalize_agent_reply (jsonMessageField : String → Option String)
    (ar : AgentResponse) : String :=
  if !ar.success then DEFAULT_ERROR_REPLY
  else
    let raw := pyStrip (pyOrStr ar.response "")
    if raw == "" then "I received your message. How can I help you today?"
    else if raw.data.head? == some (Char.ofNat 123) then
      match jsonMessageField raw with
      | some candidate =>
        if pyStrip candidate != "" then pyStrip candidate else raw
      | none => raw
    else raw

/-- `POST /whatsapp/webhook` (`whatsapp_webhook`, whatsapp.py lines
72–174).  A blank message raises HTTP 400 *before* the dedup lookup.  A
raise from `invoke_agent` is caught by the generic handler, the record
is marked `failed`, and a degraded success payload is returned. -/
def whatsapp_webhook (agent : AgentFun) (jsonMessageField : String → Option String)
    (msg : WaMsg) (db : DB) : Except ApiError WaResponse × DB :=
  if pyStrip msg.message == "" then (.error .invalidInput, db)
  else
    let phone := extract_phone_number msg.sender
    let session := "whatsapp_" ++ phone
    match db.conversations.find? (fun c =>
        c.source == msg.source && c.message_id == msg.messageId) with
    | some ex =>
      (.ok { success := true, message := some "Duplicate message already processed",
             reply_text := some (pyOrStr ex.response DEFAULT_ERROR_REPLY),
             conversation_id := some ex.id, message_id := some msg.messageId,
             deduplicated := true, error := none }, db)
    | none =>
      let doc : ConvDoc :=
        { id := db.nextId, user_id := phone, message := pyStrip msg.message,
          timestamp := msg.timestamp, source := msg.source, sender := msg.sender,
          message_id := msg.messageId, processing_status := "received",
          response := none, agent_success := none, action_group := none,
          agent_error := none, processing_error := none }
      let db1 : DB := { db with conversations := db.conversations ++ [doc],
                                nextId := db.nextId + 1 }
      match agent (pyStrip msg.message) session with
      | .ok ar =>
        let reply := normalize_agent_reply jsonMessageField ar
        let cs := updateFirst (fun c => c.id == doc.id)
          (fun c => { c with response := some reply, agent_success := some ar.success,
                             action_group := ar.action_group,
                             agent_error := ar.error_message,
                             processing_status := "completed" }) db1.conversations
        (.ok { success := true, message := some "Message processed",
               reply_text := some reply, conversation_id := some doc.id,
               message_id := some msg.messageId, deduplicated := false,
               error := none }, { db1 with conversations := cs })
      | .error e =>
        let cs := updateFirst (fun c => c.id == doc.id)
          (fun c => { c with response := some DEFAULT_ERROR_REPLY,
                             processing_error := some e,
                             processing_status := "failed" }) db1.conversations
        (.ok { success := false, message := some "Failed to process message",
               reply_text := some DEFAULT_ERROR_REPLY, conversation_id := some doc.id,
               message_id := some msg.messageId, deduplicated := false,
               error := some "internal_error" }, { db1 with conversations := cs })

/-! ### Generic store lemmas -/

theorem updateFirst_decomp {α : Type} {p : α → Bool} {l : List α} {y : α}
    (h : l.find? p = some y) (f : α → α) :
    ∃ l1 l2, l = l1 ++ y :: l2 ∧ (∀ x ∈ l1, p x = false) ∧
      updateFirst p f l = l1 ++ f y :: l2 := by
  induction l with
  | nil => simp at h
  | cons a as ih =>
    by_cases hp : p a
    · simp only [List.find?, hp] at h
      have ha : a = y := by simpa using h
      subst ha
      refine ⟨[], as, rfl, by simp, ?_⟩
      simp [updateFirst, hp]
    · have h' : as.find? p = some y := by
        simpa [List.find?, hp] using h
      obtain ⟨l1, l2, hl, hnone, hupd⟩ := ih h'
      refine ⟨a :: l1, l2, by simp [hl], ?_, ?_⟩
      · intro x hx
        rcases List.mem_cons.mp hx with rfl | hx
        · simpa using hp
        · exact hnone x hx
      · simp [updateFirst, hp, hupd]

theorem find?_append_singleton {α : Type} {p : α → Bool} {l : List α} (d : α)
    (h : l.find? p = none) :
    (l ++ [d]).find? p = if p d then some d else none := by
  induction l with
  | nil => by_cases hp : p d <;> simp [List.find?, hp]
  | cons a as ih =>
    have hpa : p a = false := by
      have := List.find?_eq_none.mp h a (by simp)
      simpa using this
    have h' : as.find? p = none := by
      simpa [List.find?, hpa] using h
    simpa [List.find?, hpa] using ih h'

theorem updateFirst_append_singleton {α : Type} {p : α → Bool} {l : List α}
    (d : α) (f : α → α) (h : ∀ x ∈ l, p x = false) :
    updateFirst p f (l ++ [d]) = l ++ [if p d then f d else d] := by
  induction l with
  | nil => by_cases hp : p d <;> simp [updateFirst, hp]
  | cons a as ih =>
    have hpa : p a = false := h a (by simp)
    have h' : ∀ x ∈ as, p x = false := fun x hx => h x (by simp [hx])
    simp [updateFirst, hpa, ih h']

/-! ### Store invariants -/

/-- Status in `{"pending", "confirmed"}` — the statuses that occupy a
slot. -/
def isActive (b : BookingDoc) : Bool :=
  b.status == .pending || b.status == .confirmed

theorem slotTaken_iff {pid : Nat} {dt tm : String} {k : BookingDoc} :
    slotTaken pid dt tm k = true ↔
      k.provider_id = pid ∧ k.date = dt ∧ k.time = tm ∧ isActive k = true := by
  simp [slotTaken, isActive, Bool.and_assoc]

/-- The no-double-book invariant of spec §3: two Pending/Confirmed
bookings occupying the same `(provider_id, date, time)` slot are the
same booking. -/
def NoDoubleBook (db : DB) : Prop :=
  ∀ b1 ∈ db.bookings, ∀ b2 ∈ db.bookings,
    b1.provider_id = b2.provider_id → b1.date = b2.date → b1.time = b2.time →
    isActive b1 = true → isActive b2 = true → b1 = b2

/-- The booking store is well formed: every stored `_id` is below the
fresh-id counter and `_id`s are pairwise distinct (Mongo guarantees both
for generated `_id`s). -/
def WfBookings (db : DB) : Prop :=
  (∀ b ∈ db.bookings, b.id < db.nextId) ∧
  (db.bookings.map (fun b => b.id)).Nodup

/-- Same well-formedness for the `conversations` collection. -/
def WfConvs (db : DB) : Prop :=
  (∀ c ∈ db.conversations, c.id < db.nextId) ∧
  (db.conversations.map (fun c => c.id)).Nodup

theorem map_id_updateFirst {db : DB} {bid : Nat} {booking : BookingDoc}
    (heq : db.bookings.find? (fun b => b.id == bid) = some booking)
    (f : BookingDoc → BookingDoc) (hid : (f booking).id = booking.id) :
    (updateFirst (fun b => b.id == bid) f db.bookings).map (fun b => b.id) =
      db.bookings.map (fun b => b.id) := by
  obtain ⟨l1, l2, hl, -, hupd⟩ := updateFirst_decomp heq f
  rw [hupd, hl]
  simp [hid]

theorem wf_updateFirst {db : DB} {bid : Nat} {booking : BookingDoc}
    (hwf : WfBookings db)
    (heq : db.bookings.find? (fun b => b.id == bid) = some booking)
    (f : BookingDoc → BookingDoc) (hid : (f booking).id = booking.id) :
    WfBookings { db with bookings := updateFirst (fun b => b.id == bid) f db.bookings } := by
  obtain ⟨l1, l2, hl, -, hupd⟩ := updateFirst_decomp heq f
  constructor
  · intro b hb
    simp only at hb
    rw [hupd] at hb
    rcases List.mem_append.mp hb with h1 | h1
    · exact hwf.1 b (by rw [hl]; exact List.mem_append_left _ h1)
    · rcases List.mem_cons.mp h1 with rfl | h2
      · have : booking ∈ db.bookings := List.mem_of_find?_eq_some heq
        simpa [hid] using hwf.1 booking this
      · exact hwf.1 b (by rw [hl]; exact List.mem_append_right _ (List.mem_cons_of_mem _ h2))
  · simpa [map_id_updateFirst heq f hid] using hwf.2

theorem noDoubleBook_updateFirst {db : DB} {bid : Nat} {booking : BookingDoc}
    (hwf : WfBookings db) (hinv : NoDoubleBook db)
    (heq : db.bookings.find? (fun b => b.id == bid) = some booking)
    (f : BookingDoc → BookingDoc)
    (hcase : isActive (f booking) = false ∨
      db.bookings.find? (fun k =>
        slotTaken (f booking).provider_id (f booking).date (f booking).time k &&
        k.id != bid) = none) :
    NoDoubleBook { db with bookings := updateFirst (fun b => b.id == bid) f db.bookings } := by
  obtain ⟨l1, l2, hl, -, hupd⟩ := updateFirst_decomp heq f
  have hbid : booking.id = bid := by
    have := List.find?_some heq
    simpa using this
  have holdmem : ∀ b : BookingDoc, b ∈ l1 ∨ b ∈ l2 → b ∈ db.bookings := by
    intro b hb
    rw [hl]
    rcases hb with hb | hb
    · exact List.mem_append_left _ hb
    · exact List.mem_append_right _ (List.mem_cons_of_mem _ hb)
  have holdid : ∀ b : BookingDoc, b ∈ l1 ∨ b ∈ l2 → b.id ≠ booking.id := by
    have hnd := hwf.2
    rw [hl] at hnd
    simp only [List.map_append, List.map_cons] at hnd
    have hmid := List.nodup_middle.mp hnd
    have : booking.id ∉ l1.map (fun b => b.id) ++ l2.map (fun b => b.id) :=
      (List.nodup_cons.mp hmid).1
    intro b hb hbe
    apply this
    rw [← hbe]
    rcases hb with hb | hb
    · exact List.mem_append_left _ (List.mem_map_of_mem _ hb)
    · exact List.mem_append_right _ (List.mem_map_of_mem _ hb)
  -- a slot-active old booking at the new slot contradicts the conflict check
  have hslot : ∀ b : BookingDoc, b ∈ l1 ∨ b ∈ l2 →
      db.bookings.find? (fun k =>
        slotTaken (f booking).provider_id (f booking).date (f booking).time k &&
        k.id != bid) = none →
      b.provider_id = (f booking).provider_id → b.date = (f booking).date →
      b.time = (f booking).time → isActive b = true → False := by
    intro b hb hconf hp hd ht ha
    have hnb := List.find?_eq_none.mp hconf b (holdmem b hb)
    apply hnb
    have hst : slotTaken (f booking).provider_id (f booking).date (f booking).time b = true :=
      slotTaken_iff.mpr ⟨hp, hd, ht, ha⟩
    have hne : (b.id != bid) = true := by
      simp only [bne_iff_ne, ne_eq]
      rw [← hbid]
      exact holdid b hb
    simp [hst, hne]
  intro b1 hb1 b2 hb2 hp hd ht ha1 ha2
  simp only at hb1 hb2
  rw [hupd] at hb1 hb2
  have hm1 : b1 ∈ l1 ∨ b1 = f booking ∨ b1 ∈ l2 := by
    rcases List.mem_append.mp hb1 with h | h
    · exact Or.inl h
    · rcases List.mem_cons.mp h with h | h
      · exact Or.inr (Or.inl h)
      · exact Or.inr (Or.inr h)
  have hm2 : b2 ∈ l1 ∨ b2 = f booking ∨ b2 ∈ l2 := by
    rcases List.mem_append.mp hb2 with h | h
    · exact Or.inl h
    · rcases List.mem_cons.mp h with h | h
      · exact Or.inr (Or.inl h)
      · exact Or.inr (Or.inr h)
  have old1 : b1 ∈ l1 ∨ b1 ∈ l2 → b2 ∈ l1 ∨ b2 ∈ l2 → b1 = b2 := by
    intro h1 h2
    exact hinv b1 (holdmem b1 h1) b2 (holdmem b2 h2) hp hd ht ha1 ha2
  rcases hm1 with h1 | h1 | h1 <;> rcases hm2 with h2 | h2 | h2
  · exact old1 (Or.inl h1) (Or.inl h2)
  · -- b2 is the updated booking, b1 old
    subst h2
    rcases hcase with hin | hconf
    · rw [hin] at ha2; cases ha2
    · exact (hslot b1 (Or.inl h1) hconf hp hd ht ha1).elim
  · exact old1 (Or.inl h1) (Or.inr h2)
  · subst h1
    rcases hcase with hin | hconf
    · rw [hin] at ha1; cases ha1
    · exact (hslot b2 (Or.inl h2) hconf hp.symm hd.symm ht.symm ha2).elim
  · subst h1; subst h2; rfl
  · subst h1
    rcases hcase with hin | hconf
    · rw [hin] at ha1; cases ha1
    · exact (hslot b2 (Or.inr h2) hconf hp.symm hd.symm ht.symm ha2).elim
  · exact old1 (Or.inr h1) (Or.inl h2)
  · subst h2
    rcases hcase with hin | hconf
    · rw [hin] at ha2; cases ha2
    · exact (hslot b1 (Or.inr h1) hconf hp hd ht ha1).elim
  · exact old1 (Or.inr h1) (Or.inr h2)

theorem create_booking_preserves {db : DB} (hwf : WfBookings db) (hinv : NoDoubleBook db)
    (u : UserCtx) (req : BookingCreateReq) (now : DateTime)
    {r : Except ApiError BookingDoc} {db' : DB}
    (h : create_booking u req now db = (r, db')) :
    WfBookings db' ∧ NoDoubleBook db' := by
  unfold create_booking at h
  split at h
  · cases h; exact ⟨hwf, hinv⟩
  · split at h
    · cases h; exact ⟨hwf, hinv⟩
    · split at h
      · split at h
        · cases h; exact ⟨hwf, hinv⟩
        · split at h
          · cases h; exact ⟨hwf, hinv⟩
          · rename_i hconf
            cases h
            constructor
            · constructor
              · intro b hb
                simp only at hb
                rcases List.mem_append.mp hb with h1 | h1
                · exact Nat.lt_trans (hwf.1 b h1) (Nat.lt_succ_self _)
                · have : b.id = db.nextId := by
                    rcases List.mem_singleton.mp h1 with rfl
                    rfl
                  simp [this]
              · simp only [List.map_append, List.map_cons, List.map_nil]
                rw [List.nodup_append]
                refine ⟨hwf.2, by simp, ?_⟩
                intro a ha hm
                simp only [List.mem_singleton] at hm
                subst hm
                rcases List.mem_map.mp ha with ⟨b, hb, hbe⟩
                have := hwf.1 b hb
                omega
            · have hnone : db.bookings.find? (slotTaken req.provider_id req.date req.time) = none := by
                rw [← Option.not_isSome_iff_eq_none]
                simpa using hconf
              have hforall := List.find?_eq_none.mp hnone
              intro b1 hb1 b2 hb2 hp hd ht ha1 ha2
              simp only at hb1 hb2
              rcases List.mem_append.mp hb1 with h1 | h1 <;>
                rcases List.mem_append.mp hb2 with h2 | h2
              · exact hinv b1 h1 b2 h2 hp hd ht ha1 ha2
              · rcases List.mem_singleton.mp h2 with rfl
                exact absurd (slotTaken_iff.mpr ⟨hp, hd, ht, ha1⟩)
                  (by simpa using hforall b1 h1)
              · rcases List.mem_singleton.mp h1 with rfl
                exact absurd (slotTaken_iff.mpr ⟨hp.symm, hd.symm, ht.symm, ha2⟩)
                  (by simpa using hforall b2 h2)
              · rcases List.mem_singleton.mp h1 with rfl
                rcases List.mem_singleton.mp h2 with rfl
                rfl
      · cases h; exact ⟨hwf, hinv⟩

theorem refetchBooking_snd (bid : Nat) (db1 : DB) :
    (refetchBooking bid db1).2 = db1 := by
  unfold refetchBooking
  split <;> rfl

theorem cancel_booking_preserves {db : DB} (hwf : WfBookings db) (hinv : NoDoubleBook db)
    (bid : Nat) (req : CancelReq) (u : UserCtx) (now : DateTime)
    {r : Except ApiError BookingDoc} {db' : DB}
    (h : cancel_booking bid req u now db = (r, db')) :
    WfBookings db' ∧ NoDoubleBook db' := by
  unfold cancel_booking at h
  split at h
  · cases h; exact ⟨hwf, hinv⟩
  · rename_i booking heq
    split at h
    · cases h; exact ⟨hwf, hinv⟩
    · split at h
      · cases h; exact ⟨hwf, hinv⟩
      · split at h
        · dsimp only at h
          split at h
          · cases h; exact ⟨hwf, hinv⟩
          · split at h
            · cases h; exact ⟨hwf, hinv⟩
            · split at h
              · cases h; exact ⟨hwf, hinv⟩
              · split at h
                · cases h; exact ⟨hwf, hinv⟩
                · rename_i hconf
                  have hdb : db' = _ := (congrArg Prod.snd h).symm.trans (refetchBooking_snd _ _)
                  subst hdb
                  refine ⟨wf_updateFirst hwf heq _ rfl,
                    noDoubleBook_updateFirst hwf hinv heq _
                      (Or.inr (Option.not_isSome_iff_eq_none.mp hconf))⟩
        · have hdb : db' = _ := (congrArg Prod.snd h).symm.trans (refetchBooking_snd _ _)
          subst hdb
          exact ⟨wf_updateFirst hwf heq _ rfl,
            noDoubleBook_updateFirst hwf hinv heq _ (Or.inl rfl)⟩

/-! ### Shared concrete fixtures -/

def wNow : DateTime := ⟨⟨2026, 1, 1⟩, ⟨12, 0⟩⟩
def wCust : UserCtx := ⟨"c1", .customer⟩
def wProv : ProviderDoc := ⟨10, "pu", true, none, none, none⟩
def wDb0 : DB := ⟨[], [wProv], [], [], 20⟩
def wCreateReq : BookingCreateReq := ⟨"c1", 10, "plumber", "2026-02-20", "14:00", 1, none⟩

/-- C1: in every well-formed booking store satisfying the no-double-book
invariant, every `createBooking` and every `cancelOrRescheduleBooking`
(which includes every reschedule) yields a store that still satisfies
the invariant: two Pending/Confirmed bookings on the same
`(provider_id, date, time)` slot are the same booking. -/
theorem noDoubleBook_preserved_by_create_and_reschedule (db : DB)
    (hwf : WfBookings db) (hinv : NoDoubleBook db) :
    (∀ u req now r db', create_booking u req now db = (r, db') →
        WfBookings db' ∧ NoDoubleBook db') ∧
    (∀ bid req u now r db', cancel_booking bid req u now db = (r, db') →
        WfBookings db' ∧ NoDoubleBook db') :=
  ⟨fun u req now _ _ h => create_booking_preserves hwf hinv u req now h,
   fun bid req u now _ _ h => cancel_booking_preserves hwf hinv bid req u now h⟩

/-- Witness for C1 at a concrete store and request. -/
theorem noDoubleBook_preserved_witness :
    WfBookings wDb0 ∧ NoDoubleBook wDb0 ∧
      (WfBookings (create_booking wCust wCreateReq wNow wDb0).2 ∧
       NoDoubleBook (create_booking wCust wCreateReq wNow wDb0).2) :=
  ⟨by unfold WfBookings; decide, by unfold NoDoubleBook; decide,
   (noDoubleBook_preserved_by_create_and_reschedule wDb0
      (by unfold WfBookings; decide) (by unfold NoDoubleBook; decide)).1
     wCust wCreateReq wNow _ _ rfl⟩

def wBkDone : BookingDoc :=
  { id := 1, customer_id := "c1", provider_id := 10, service_type := "plumber",
    date := "2026-02-20", time := "14:00", duration_hours := 1, notes := none,
    status := .completed, created_at := wNow, updated_at := wNow,
    cancellation_reason := none }

def wDbDone : DB := ⟨[wBkDone], [wProv], [], [], 20⟩

/-- C2 counterexample: booking 1 is Completed, yet `setBookingStatus`
(`update_booking_status`), called by the owning customer with the valid
literal `"pending"`, succeeds and moves it back to Pending — the route
never inspects the current status, so Completed is not terminal. -/
theorem terminal_status_counterexample :
    wBkDone.status = BookingStatus.completed ∧
    (update_booking_status 1 "pending" wCust wDbDone).1 = .ok () ∧
    ((update_booking_status 1 "pending" wCust wDbDone).2.bookings.find?
      (fun b => b.id == 1)).map (fun b => b.status) = some BookingStatus.pending :=
  ⟨rfl, by decide, by decide⟩

theorem mem_updateFirst_of_ne {α : Type} {p : α → Bool} {l : List α} {y b : α}
    (heq : l.find? p = some y) (f : α → α) (hb : b ∈ l) (hne : b ≠ y) :
    b ∈ updateFirst p f l := by
  obtain ⟨l1, l2, hl, -, hupd⟩ := updateFirst_decomp heq f
  rw [hupd]
  rw [hl] at hb
  rcases List.mem_append.mp hb with h1 | h1
  · exact List.mem_append_left _ h1
  · rcases List.mem_cons.mp h1 with rfl | h2
    · exact absurd rfl hne
    · exact List.mem_append_right _ (List.mem_cons_of_mem _ h2)

theorem rate_booking_bookings (bid : Nat) (rd : RatingCreateReq) (u : UserCtx)
    (now : DateTime) (db : DB) :
    (rate_booking bid rd u now db).2.bookings = db.bookings := by
  unfold rate_booking
  split
  · rfl
  · split
    · rfl
    · split
      · rfl
      · split
        · rfl
        · split
          · rfl
          · split
            · rfl
            · split
              · rfl
              · dsimp only
                split <;> rfl

/-- C2 (amended): Completed and Cancelled are terminal for
`createBooking`, `cancelOrRescheduleBooking` and `submitRating`: a
stored booking in a terminal status is still stored unchanged after any
such call (create only appends, cancel/reschedule rejects terminal
targets and rewrites only its non-terminal target, rate never touches
the bookings collection).  The claim fails for `setBookingStatus`. -/
theorem terminal_status_closed_except_setStatus (db : DB) (b : BookingDoc)
    (hb : b ∈ db.bookings)
    (hterm : b.status = BookingStatus.completed ∨ b.status = BookingStatus.cancelled) :
    (∀ u req now, b ∈ (create_booking u req now db).2.bookings) ∧
    (∀ bid req u now, b ∈ (cancel_booking bid req u now db).2.bookings) ∧
    (∀ bid rd u now, b ∈ (rate_booking bid rd u now db).2.bookings) := by
  refine ⟨?_, ?_, ?_⟩
  · intro u req now
    unfold create_booking
    split
    · exact hb
    · split
      · exact hb
      · split
        · split
          · exact hb
          · split
            · exact hb
            · exact List.mem_append_left _ hb
        · exact hb
  · intro bid req u now
    unfold cancel_booking
    split
    · exact hb
    · rename_i booking heq
      split
      · exact hb
      · split
        · exact hb
        · rename_i hnterm
          have hbne : b ≠ booking := by
            intro hc
            subst hc
            rcases hterm with ht | ht <;> simp [ht] at hnterm
          split
          · dsimp only
            split
            · exact hb
            · split
              · exact hb
              · split
                · exact hb
                · split
                  · exact hb
                  · rw [refetchBooking_snd]
                    exact mem_updateFirst_of_ne heq _ hb hbne
          · rw [refetchBooking_snd]
            exact mem_updateFirst_of_ne heq _ hb hbne
  · intro bid rd u now
    rw [rate_booking_bookings]
    exact hb

/-- Witness for the amended C2 theorem: attempting to cancel the
Completed booking leaves it stored unchanged. -/
theorem terminal_status_witness :
    wBkDone ∈ wDbDone.bookings ∧ wBkDone.status = BookingStatus.completed ∧
    wBkDone ∈ (cancel_booking 1 ⟨none, none, none, "cancel"⟩ wCust wNow wDbDone).2.bookings :=
  ⟨by decide, rfl,
   (terminal_status_closed_except_setStatus wDbDone wBkDone (by decide) (Or.inl rfl)).2.1
     1 ⟨none, none, none, "cancel"⟩ wCust wNow⟩

/-- C6: code bug.  The claim describes the intended contract
(NotFound / Forbidden / InvalidInput), and the repo's own test
`test_update_booking_status_unauthorized` asserts 403, but in
`update_booking_status` the `status : str` query parameter shadows the
imported fastapi `status` module, so `status.HTTP_404_NOT_FOUND`,
`status.HTTP_403_FORBIDDEN` and `status.HTTP_400_BAD_REQUEST` are
attribute lookups on a string: every error path dies with
`AttributeError` and surfaces as HTTP 500, never as the contracted
error.  Evaluated here on all three failing inputs. -/
theorem update_status_shadowing_bug :
    ((update_booking_status 99 "confirmed" wCust wDbDone).1 = .error .internalError ∧
      (update_booking_status 99 "confirmed" wCust wDbDone).1 ≠ .error .notFound) ∧
    ((update_booking_status 1 "confirmed" ⟨"other", .customer⟩ wDbDone).1 =
        .error .internalError ∧
      (update_booking_status 1 "confirmed" ⟨"other", .customer⟩ wDbDone).1 ≠
        .error .forbidden) ∧
    ((update_booking_status 1 "bogus" wCust wDbDone).1 = .error .internalError ∧
      (update_booking_status 1 "bogus" wCust wDbDone).1 ≠ .error .invalidInput) :=
  ⟨⟨by decide, by decide⟩, ⟨by decide, by decide⟩, ⟨by decide, by decide⟩⟩

/-- C8: the `createBooking` contract for a customer caller, branch by
branch in the order the route checks them: missing/unverified provider →
NotFound; malformed date or time → InvalidInput; not strictly in the
future → InvalidInput; occupied slot → Conflict; otherwise a new booking
with status Pending and `created_at = updated_at = now` is appended. -/
theorem create_booking_contract (u : UserCtx) (req : BookingCreateReq)
    (now : DateTime) (db : DB) (hrole : u.role = Role.customer) :
    (db.service_providers.find? (fun p => p.id == req.provider_id && p.is_verified) = none →
      create_booking u req now db = (.error .notFound, db)) ∧
    (∀ pr, db.service_providers.find? (fun p => p.id == req.provider_id && p.is_verified) =
        some pr →
      (parseDate req.date = none ∨ parseTime req.time = none) →
      create_booking u req now db = (.error .invalidInput, db)) ∧
    (∀ pr d t, db.service_providers.find? (fun p => p.id == req.provider_id && p.is_verified) =
        some pr →
      parseDate req.date = some d → parseTime req.time = some t →
      dtLe ⟨d, t⟩ now = true →
      create_booking u req now db = (.error .invalidInput, db)) ∧
    (∀ pr d t, db.service_providers.find? (fun p => p.id == req.provider_id && p.is_verified) =
        some pr →
      parseDate req.date = some d → parseTime req.time = some t →
      dtLe ⟨d, t⟩ now = false →
      (db.bookings.find? (slotTaken req.provider_id req.date req.time)).isSome = true →
      create_booking u req now db = (.error .conflict, db)) ∧
    (∀ pr d t, db.service_providers.find? (fun p => p.id == req.provider_id && p.is_verified) =
        some pr →
      parseDate req.date = some d → parseTime req.time = some t →
      dtLe ⟨d, t⟩ now = false →
      (db.bookings.find? (slotTaken req.provider_id req.date req.time)).isSome = false →
      ∃ bk, create_booking u req now db =
          (.ok bk, { db with bookings := db.bookings ++ [bk], nextId := db.nextId + 1 }) ∧
        bk.status = BookingStatus.pending ∧ bk.created_at = now ∧ bk.updated_at = now ∧
        bk.customer_id = u.id ∧ bk.provider_id = req.provider_id ∧
        bk.date = req.date ∧ bk.time = req.time) := by
  refine ⟨?_, ?_, ?_, ?_, ?_⟩
  · intro hfind
    simp [create_booking, hrole, hfind]
  · intro pr hfind hpar
    rcases hpar with hp | hp <;> simp [create_booking, hrole, hfind, hp]
  · intro pr d t hfind hd ht hle
    simp [create_booking, hrole, hfind, hd, ht, hle]
  · intro pr d t hfind hd ht hle hslot
    simp [create_booking, hrole, hfind, hd, ht, hle, hslot]
  · intro pr d t hfind hd ht hle hslot
    refine ⟨{ id := db.nextId, customer_id := u.id, provider_id := req.provider_id,
              service_type := req.service_type, date := req.date, time := req.time,
              duration_hours := req.duration_hours, notes := req.notes,
              status := .pending, created_at := now, updated_at := now,
              cancellation_reason := none }, ?_, rfl, rfl, rfl, rfl, rfl, rfl, rfl⟩
    simp [create_booking, hrole, hfind, hd, ht, hle, hslot]

/-- Witness for C8 on the success branch at a concrete store. -/
theorem create_booking_contract_witness :
    wCust.role = Role.customer ∧
    ∃ bk, create_booking wCust wCreateReq wNow wDb0 =
        (.ok bk, { wDb0 with bookings := wDb0.bookings ++ [bk], nextId := wDb0.nextId + 1 }) ∧
      bk.status = BookingStatus.pending ∧ bk.created_at = wNow ∧ bk.updated_at = wNow ∧
      bk.customer_id = wCust.id ∧ bk.provider_id = wCreateReq.provider_id ∧
      bk.date = wCreateReq.date ∧ bk.time = wCreateReq.time :=
  ⟨rfl, (create_booking_contract wCust wCreateReq wNow wDb0 rfl).2.2.2.2 wProv
    ⟨2026, 2, 20⟩ ⟨14, 0⟩ (by decide) (by decide) (by decide) (by decide) (by decide)⟩

def wBkPend : BookingDoc := { wBkDone with status := .pending }

def wDbPend : DB := ⟨[wBkPend], [wProv], [], [], 20⟩

/-- C7 counterexample: `action = "reschedule"` with no truthy `newDate`
is not rejected ("newDate required") — the route ignores `action` and
branches on `new_date` truthiness, so both an absent `newDate` and
`newDate = ""` silently CANCEL the Pending booking. -/
theorem reschedule_counterexample :
    (CancelReq.mk none none none "reschedule").action = "reschedule" ∧
    (cancel_booking 1 (CancelReq.mk none none none "reschedule") wCust wNow wDbPend).1.map
      (fun b => b.status) = .ok BookingStatus.cancelled ∧
    (CancelReq.mk none (some "") none "reschedule").action = "reschedule" ∧
    (cancel_booking 1 (CancelReq.mk none (some "") none "reschedule") wCust wNow wDbPend).1.map
      (fun b => b.status) = .ok BookingStatus.cancelled :=
  ⟨rfl, by decide, rfl, by decide⟩

theorem find?_middle {α : Type} {p : α → Bool} {l1 l2 : List α} {z : α}
    (h1 : ∀ x ∈ l1, p x = false) (hz : p z = true) :
    (l1 ++ z :: l2).find? p = some z := by
  induction l1 with
  | nil => simp [List.find?, hz]
  | cons a as ih =>
    have hpa : p a = false := h1 a (by simp)
    have h1' : ∀ x ∈ as, p x = false := fun x hx => h1 x (by simp [hx])
    simp [List.find?, hpa, ih h1']

theorem refetch_after_update {db : DB} {bid : Nat} {booking : BookingDoc}
    (heq : db.bookings.find? (fun b => b.id == bid) = some booking)
    (f : BookingDoc → BookingDoc) (hid : (f booking).id = booking.id) :
    refetchBooking bid
        { db with bookings := updateFirst (fun b => b.id == bid) f db.bookings } =
      (.ok (f booking),
        { db with bookings := updateFirst (fun b => b.id == bid) f db.bookings }) := by
  obtain ⟨l1, l2, hl, hnone, hupd⟩ := updateFirst_decomp heq f
  have hbid : (booking.id == bid) = true := by
    have := List.find?_some heq
    simpa using this
  have hfy : ((f booking).id == bid) = true := by rw [hid]; exact hbid
  have hfind : (updateFirst (fun b => b.id == bid) f db.bookings).find?
      (fun b => b.id == bid) = some (f booking) := by
    rw [hupd]
    exact find?_middle hnone hfy
  unfold refetchBooking
  simp [hfind]

/-- The update applied by the reschedule branch of `cancel_booking`
(lines 274–316): set the new date, the new time when truthy (else keep
the stored time), reset the status to Pending, stamp `updated_at`, and
record the reason when truthy. -/
def rescheduleFun (nd : String) (nt : Option String) (now : DateTime)
    (reason : Option String) : BookingDoc → BookingDoc := fun b =>
  { b with date := nd, time := pyOrStr nt b.time, status := .pending, updated_at := now,
           cancellation_reason := if pyTruthy reason then reason else b.cancellation_reason }

/-- The update applied by the cancel branch of `cancel_booking`
(lines 323–330). -/
def cancelFun (now : DateTime) (reason : Option String) : BookingDoc → BookingDoc := fun b =>
  { b with status := .cancelled, updated_at := now,
           cancellation_reason := if pyTruthy reason then reason else b.cancellation_reason }

theorem cancel_booking_reschedule_ok {db : DB} {bid : Nat} {booking : BookingDoc}
    {u : UserCtx} {now : DateTime} {req : CancelReq} {nd : String}
    (heq : db.bookings.find? (fun b => b.id == bid) = some booking)
    (hrole : u.role = Role.customer) (hown : booking.customer_id = u.id)
    (hnc : booking.status ≠ BookingStatus.completed)
    (hnx : booking.status ≠ BookingStatus.cancelled)
    (hnd : req.new_date = some nd) (hnde : nd ≠ "") {d : Date} {t : Time}
    (hd : parseDate nd = some d)
    (ht : parseTime (pyOrStr req.new_time booking.time) = some t)
    (hle : dtLe ⟨d, t⟩ now = false)
    (hconf : db.bookings.find? (fun k =>
        slotTaken booking.provider_id nd (pyOrStr req.new_time booking.time) k &&
        k.id != bid) = none) :
    cancel_booking bid req u now db =
      (Except.ok (rescheduleFun nd req.new_time now req.reason booking),
       { db with bookings := updateFirst (fun b => b.id == bid) (rescheduleFun nd req.new_time now req.reason) db.bookings }) := by
  have hguard : (!(u.role == Role.customer && booking.customer_id == u.id)) = false := by
    simp [hrole, hown]
  have hterm : (booking.status == BookingStatus.completed ||
      booking.status == BookingStatus.cancelled) = false := by
    simp [hnc, hnx]
  have htr : pyTruthy req.new_date = true := by simp [pyTruthy, hnd, hnde]
  unfold cancel_booking
  rw [heq]
  simp only [hguard, Bool.false_eq_true, if_false, hterm]
  rw [if_pos htr]
  simp only [hnd, Option.getD_some]
  rw [hd, ht]
  simp only [hle, Bool.false_eq_true, if_false, hconf, Option.isSome_none]
  exact refetch_after_update heq (rescheduleFun nd req.new_time now req.reason) rfl

theorem cancel_booking_cancel_ok {db : DB} {bid : Nat} {booking : BookingDoc}
    {u : UserCtx} {now : DateTime} {req : CancelReq}
    (heq : db.bookings.find? (fun b => b.id == bid) = some booking)
    (hrole : u.role = Role.customer) (hown : booking.customer_id = u.id)
    (hnc : booking.status ≠ BookingStatus.completed)
    (hnx : booking.status ≠ BookingStatus.cancelled)
    (hnd : pyTruthy req.new_date = false) :
    cancel_booking bid req u now db =
      (Except.ok (cancelFun now req.reason booking),
       { db with bookings := updateFirst (fun b => b.id == bid) (cancelFun now req.reason) db.bookings }) := by
  have hguard : (!(u.role == Role.customer && booking.customer_id == u.id)) = false := by
    simp [hrole, hown]
  have hterm : (booking.status == BookingStatus.completed ||
      booking.status == BookingStatus.cancelled) = false := by
    simp [hnc, hnx]
  unfold cancel_booking
  rw [heq]
  simp only [hguard, Bool.false_eq_true, if_false, hterm, hnd]
  exact refetch_after_update heq (cancelFun now req.reason) rfl

/-- C7 (amended): `cancel_booking` ignores the `action` literal and
branches on the Python truthiness of `newDate`.  When `newDate` is a
non-empty string (for the owning customer on a non-terminal booking):
malformed date or effective time → InvalidInput; an instant not in the
future → InvalidInput; an occupied slot (checked with `_id ≠ self`) →
Conflict; otherwise the booking is rewritten to the new date, the time
replaced only by a truthy `newTime` and otherwise kept (so an absent or
empty `newTime` defaults to the stored time), status reset to Pending
and `updated_at` stamped.  In a no-double-book store, rescheduling a
booking to its own current slot therefore never returns a false
Conflict.  When `newDate` is absent or empty — even with
`action = "reschedule"` — the booking is cancelled instead of the call
being rejected for a missing `newDate`. -/
theorem reschedule_behavior (db : DB) (bid : Nat) (booking : BookingDoc)
    (u : UserCtx) (now : DateTime) (req : CancelReq) (nd : String)
    (heq : db.bookings.find? (fun b => b.id == bid) = some booking)
    (hrole : u.role = Role.customer) (hown : booking.customer_id = u.id)
    (hnc : booking.status ≠ BookingStatus.completed)
    (hnx : booking.status ≠ BookingStatus.cancelled)
    (hnd : req.new_date = some nd) (hnde : nd ≠ "") :
    (parseDate nd = none →
      cancel_booking bid req u now db = (.error .invalidInput, db)) ∧
    (∀ d, parseDate nd = some d →
      parseTime (pyOrStr req.new_time booking.time) = none →
      cancel_booking bid req u now db = (.error .invalidInput, db)) ∧
    (∀ d t, parseDate nd = some d →
      parseTime (pyOrStr req.new_time booking.time) = some t →
      dtLe ⟨d, t⟩ now = true →
      cancel_booking bid req u now db = (.error .invalidInput, db)) ∧
    (∀ d t, parseDate nd = some d →
      parseTime (pyOrStr req.new_time booking.time) = some t →
      dtLe ⟨d, t⟩ now = false →
      (db.bookings.find? (fun k =>
        slotTaken booking.provider_id nd (pyOrStr req.new_time booking.time) k &&
        k.id != bid)).isSome = true →
      cancel_booking bid req u now db = (.error .conflict, db)) ∧
    (∀ d t, parseDate nd = some d →
      parseTime (pyOrStr req.new_time booking.time) = some t →
      dtLe ⟨d, t⟩ now = false →
      db.bookings.find? (fun k =>
        slotTaken booking.provider_id nd (pyOrStr req.new_time booking.time) k &&
        k.id != bid) = none →
      ∃ bk db2, cancel_booking bid req u now db = (.ok bk, db2) ∧
        bk.id = booking.id ∧ bk.date = nd ∧
        bk.time = pyOrStr req.new_time booking.time ∧
        bk.status = BookingStatus.pending ∧ bk.updated_at = now) ∧
    (NoDoubleBook db → isActive booking = true → nd = booking.date →
      pyOrStr req.new_time booking.time = booking.time →
      ∀ d t, parseDate nd = some d →
      parseTime (pyOrStr req.new_time booking.time) = some t →
      dtLe ⟨d, t⟩ now = false →
      ∃ bk db2, cancel_booking bid req u now db = (.ok bk, db2) ∧
        bk.id = booking.id ∧ bk.status = BookingStatus.pending ∧
        bk.date = booking.date ∧ bk.time = booking.time) ∧
    (∀ req2 : CancelReq, pyTruthy req2.new_date = false →
      ∃ bk db2, cancel_booking bid req2 u now db = (.ok bk, db2) ∧
        bk.id = booking.id ∧ bk.status = BookingStatus.cancelled ∧
        bk.updated_at = now) := by
  have hguard : (!(u.role == Role.customer && booking.customer_id == u.id)) = false := by
    simp [hrole, hown]
  have hterm : (booking.status == BookingStatus.completed ||
      booking.status == BookingStatus.cancelled) = false := by
    simp [hnc, hnx]
  have htr : pyTruthy req.new_date = true := by simp [pyTruthy, hnd, hnde]
  have hbid : (booking.id == bid) = true := by
    have := List.find?_some heq
    simpa using this
  refine ⟨?_, ?_, ?_, ?_, ?_, ?_, ?_⟩
  · intro hdn
    unfold cancel_booking
    rw [heq]
    simp only [hguard, Bool.false_eq_true, if_false, hterm]
    rw [if_pos htr]
    simp [hnd, hdn]
  · intro d hd ht
    unfold cancel_booking
    rw [heq]
    simp only [hguard, Bool.false_eq_true, if_false, hterm]
    rw [if_pos htr]
    simp [hnd, hd, ht]
  · intro d t hd ht hle
    unfold cancel_booking
    rw [heq]
    simp only [hguard, Bool.false_eq_true, if_false, hterm]
    rw [if_pos htr]
    simp [hnd, hd, ht, hle]
  · intro d t hd ht hle hconf
    unfold cancel_booking
    rw [heq]
    simp only [hguard, Bool.false_eq_true, if_false, hterm]
    rw [if_pos htr]
    simp [hnd, hd, ht, hle, hconf]
  · intro d t hd ht hle hconf
    exact ⟨rescheduleFun nd req.new_time now req.reason booking, _,
      cancel_booking_reschedule_ok heq hrole hown hnc hnx hnd hnde hd ht hle hconf,
      rfl, rfl, rfl, rfl, rfl⟩
  · intro hinv hact hdate htime d t hd ht hle
    have hbmem : booking ∈ db.bookings := List.mem_of_find?_eq_some heq
    have hconf : db.bookings.find? (fun k =>
        slotTaken booking.provider_id nd (pyOrStr req.new_time booking.time) k &&
        k.id != bid) = none := by
      apply List.find?_eq_none.mpr
      intro k hk
      simp only [Bool.and_eq_true, bne_iff_ne, ne_eq, not_and]
      intro hst hne
      obtain ⟨hkp, hkd, hkt, hka⟩ := slotTaken_iff.mp hst
      have hkb : k = booking := by
        refine hinv k hk booking hbmem hkp ?_ ?_ hka hact
        · rw [hkd, hdate]
        · rw [hkt, htime]
      apply hne
      rw [hkb]
      simpa using hbid
    exact ⟨rescheduleFun nd req.new_time now req.reason booking, _,
      cancel_booking_reschedule_ok heq hrole hown hnc hnx hnd hnde hd ht hle hconf,
      rfl, rfl, hdate, htime⟩
  · intro req2 hnd2
    exact ⟨cancelFun now req2.reason booking, _,
      cancel_booking_cancel_ok heq hrole hown hnc hnx hnd2, rfl, rfl, rfl⟩

/-- Witness for C7: rescheduling the Pending booking to its own current
slot (time defaulted from the booking since no `newTime` is supplied)
succeeds with no false Conflict, resetting the status to Pending. -/
theorem reschedule_behavior_witness :
    wDbPend.bookings.find? (fun b => b.id == 1) = some wBkPend ∧
    ∃ bk db2,
      cancel_booking 1 (CancelReq.mk none (some "2026-02-20") none "reschedule")
        wCust wNow wDbPend = (.ok bk, db2) ∧
      bk.id = wBkPend.id ∧ bk.status = BookingStatus.pending ∧
      bk.date = wBkPend.date ∧ bk.time = wBkPend.time :=
  ⟨by decide,
   (reschedule_behavior wDbPend 1 wBkPend wCust wNow
      (CancelReq.mk none (some "2026-02-20") none "reschedule") "2026-02-20"
      (by decide) rfl rfl (by decide) (by decide) rfl (by decide)).2.2.2.2.2.1
     (by unfold NoDoubleBook; decide) (by decide) rfl rfl
     ⟨2026, 2, 20⟩ ⟨14, 0⟩ (by decide) (by decide) (by decide)⟩

theorem rate_booking_error_keeps_db (bid : Nat) (rd : RatingCreateReq) (u : UserCtx)
    (now : DateTime) (db : DB) (e : ApiError) (db1 : DB)
    (h : rate_booking bid rd u now db = (.error e, db1)) : db1 = db := by
  unfold rate_booking at h
  split at h
  · cases h; rfl
  · split at h
    · cases h; rfl
    · split at h
      · cases h; rfl
      · split at h
        · cases h; rfl
        · split at h
          · cases h; rfl
          · split at h
            · cases h; rfl
            · split at h
              · cases h; rfl
              · dsimp only at h
                split at h
                · cases h
                · cases h

theorem rate_booking_second_call {bid : Nat} {rd : RatingCreateReq} {u : UserCtx}
    {now : DateTime} {db : DB} {r : RatingDoc} {db1 : DB}
    (h : rate_booking bid rd u now db = (.ok r, db1)) :
    (∀ rd2 u2 now2, ∃ e, (rate_booking bid rd2 u2 now2 db1).1 = .error e) ∧
    (∀ rd2 now2, (rate_booking bid rd2 u now2 db1).1 = .error .conflict) := by
  unfold rate_booking at h
  split at h
  · cases h
  · rename_i booking heq
    split at h
    · cases h
    · rename_i hauth
      split at h
      · cases h
      · rename_i hstat
        split at h
        · cases h
        · rename_i hdup
          split at h
          · cases h
          · rename_i hbid2
            split at h
            · cases h
            · split at h
              · cases h
              · dsimp only at h
                have hraw : ∀ db2 : DB, db2.bookings = db.bookings →
                    (db2.ratings.find? (fun x => x.booking_id == bid)).isSome = true →
                    (∀ rd2 u2 now2, ∃ e, (rate_booking bid rd2 u2 now2 db2).1 = .error e) ∧
                    (∀ rd2 now2, (rate_booking bid rd2 u now2 db2).1 = .error .conflict) := by
                  intro db2 hbk hdup2
                  have hbk2 : db2.bookings.find? (fun b => b.id == bid) = some booking := by
                    rw [hbk]; exact heq
                  constructor
                  · intro rd2 u2 now2
                    by_cases hg : (!(u2.role == Role.customer && booking.customer_id == u2.id)) = true
                    · refine ⟨.forbidden, ?_⟩
                      unfold rate_booking
                      rw [hbk2]
                      simp [hg]
                    · by_cases hs : (booking.status != BookingStatus.completed) = true
                      · refine ⟨.invalidInput, ?_⟩
                        unfold rate_booking
                        rw [hbk2]
                        simp [hg, hs]
                      · refine ⟨.conflict, ?_⟩
                        unfold rate_booking
                        rw [hbk2]
                        simp only [Bool.not_eq_true] at hg hs
                        simp [hg, hs, hdup2]
                  · intro rd2 now2
                    unfold rate_booking
                    rw [hbk2]
                    simp only [Bool.not_eq_true] at hauth hstat
                    simp [hauth, hstat, hdup2]
                have hdorig : db.ratings.find? (fun x => x.booking_id == bid) = none := by
                  rw [← Option.not_isSome_iff_eq_none]
                  simpa using hdup
                have hbeq : (rd.booking_id == bid) = true := by
                  simp only [Bool.not_eq_true, bne_eq_false_iff_eq] at hbid2
                  simp [hbid2]
                split at h
                · cases h
                  refine hraw _ rfl ?_
                  rw [find?_append_singleton _ hdorig]
                  simp [hbeq]
                · cases h
                  refine hraw _ rfl ?_
                  rw [find?_append_singleton _ hdorig]
                  simp [hbeq]

/-- C4: ratings are exactly-once per booking and rejections never touch
the store.  (i) Every rejected `submitRating` returns the store
unchanged — in particular the provider's aggregate is untouched on
Conflict, NotFound, Forbidden, InvalidInput and wrong-state rejections.
(ii) After an accepted rating, every further `submitRating` for the same
booking is rejected (so at most one is ever accepted), and a retry by
the owning customer is rejected with Conflict specifically. -/
theorem rating_exactly_once :
    (∀ bid rd u now db e db1,
      rate_booking bid rd u now db = (.error e, db1) → db1 = db) ∧
    (∀ bid rd u now db r db1,
      rate_booking bid rd u now db = (.ok r, db1) →
      (∀ rd2 u2 now2, ∃ e, (rate_booking bid rd2 u2 now2 db1).1 = .error e) ∧
      (∀ rd2 now2, (rate_booking bid rd2 u now2 db1).1 = .error .conflict)) :=
  ⟨rate_booking_error_keeps_db,
   fun _ _ _ _ _ _ _ h => rate_booking_second_call h⟩

def wRate : RatingCreateReq := ⟨1, "c1", 10, 5, none⟩

def wRateDoc : RatingDoc :=
  { id := 20, booking_id := 1, customer_id := "c1", provider_id := 10,
    rating := 5, comment := none, created_at := wNow }

/-- Witness for C4: the first rating of the Completed booking is
accepted; an identical retry by the same customer returns Conflict. -/
theorem rating_exactly_once_witness :
    rate_booking 1 wRate wCust wNow wDbDone =
      (.ok wRateDoc, (rate_booking 1 wRate wCust wNow wDbDone).2) ∧
    (rate_booking 1 wRate wCust wNow ((rate_booking 1 wRate wCust wNow wDbDone).2)).1 =
      .error .conflict :=
  ⟨by decide,
   (rating_exactly_once.2 1 wRate wCust wNow wDbDone wRateDoc _ (by decide)).2 wRate wNow⟩

theorem find?_updateFirst {α : Type} {p : α → Bool} {l : List α} {y : α}
    (heq : l.find? p = some y) (f : α → α) (hf : p (f y) = true) :
    (updateFirst p f l).find? p = some (f y) := by
  obtain ⟨l1, l2, hl, hnone, hupd⟩ := updateFirst_decomp heq f
  rw [hupd]
  exact find?_middle hnone hf

/-- C5 (amended): an accepted rating with a present provider document
advances the aggregate by one step of the recurrence applied to the
*stored* provider fields: the new count is `old_count + 1` and the new
stored average is `round2((stored_avg * old_count + score)/(old_count + 1))`.
The stored, 2-decimal-rounded average is the only accumulator — the next
step reads it back — so accumulation is over rounded values, not a
full-precision value rounded for display only. -/
theorem rate_booking_aggregate_step (bid : Nat) (rd : RatingCreateReq) (u : UserCtx)
    (now : DateTime) (db : DB) (r : RatingDoc) (db1 : DB) (booking : BookingDoc)
    (p : ProviderDoc)
    (h : rate_booking bid rd u now db = (.ok r, db1))
    (heq : db.bookings.find? (fun b => b.id == bid) = some booking)
    (hp : db.service_providers.find? (fun q => q.id == booking.provider_id) = some p) :
    db1.service_providers.find? (fun q => q.id == booking.provider_id) =
      some { p with
        rating := some (round2 (provider_next_average (p.rating.getD 0)
          (p.total_ratings.getD 0) rd.rating)),
        total_ratings := some (p.total_ratings.getD 0 + 1),
        updated_at := some now } := by
  unfold rate_booking at h
  split at h
  · cases h
  · rename_i booking' heq'
    have hbb : booking' = booking := by
      have := heq.symm.trans heq'
      exact (Option.some_injective _ this).symm
    subst hbb
    split at h
    · cases h
    · split at h
      · cases h
      · split at h
        · cases h
        · split at h
          · cases h
          · split at h
            · cases h
            · split at h
              · cases h
              · dsimp only at h
                split at h
                · rename_i p' hp'
                  have hpp : p' = p := (Option.some_injective _ (hp.symm.trans hp')).symm
                  subst hpp
                  cases h
                  have hidf : ((fun q => q.id == booking'.provider_id)
                      ({ p' with
                        rating := some (round2 (provider_next_average (p'.rating.getD 0)
                          (p'.total_ratings.getD 0) rd.rating)),
                        total_ratings := some (p'.total_ratings.getD 0 + 1),
                        updated_at := some now } : ProviderDoc)) = true := by
                    have := List.find?_some hp'
                    simpa using this
                  exact find?_updateFirst hp' _ hidf
                · rename_i hpn
                  rw [hp] at hpn
                  cases hpn

def wBk2 : BookingDoc := { wBkDone with id := 2, time := "15:00" }

def wBk3 : BookingDoc := { wBkDone with id := 3, time := "16:00" }

def wDb3 : DB := ⟨[wBkDone, wBk2, wBk3], [wProv], [], [], 20⟩

def wAfter1 : DB :=
  (rate_booking 1 ⟨1, "c1", 10, 1, none⟩ wCust wNow wDb3).2

def wAfter2 : DB :=
  (rate_booking 2 ⟨2, "c1", 10, 1, none⟩ wCust wNow wAfter1).2

def wAfter3 : DB :=
  (rate_booking 3 ⟨3, "c1", 10, 2, none⟩ wCust wNow wAfter2).2

/-- C5 counterexample: after the accepted scores 1, 1, 2 the stored
provider average is exactly 133/100 (the rounded value), while the
arithmetic mean — what a full-precision internal accumulator would hold —
is 4/3.  The only accumulator is the stored rounded field, so "rounding
applied for display only while internal accumulation retains full
precision" is false; the next step's `old_avg` is 1.33, not 4/3. -/
theorem aggregate_counterexample :
    (rate_booking 1 ⟨1, "c1", 10, 1, none⟩ wCust wNow wDb3).1.isOk = true ∧
    (rate_booking 2 ⟨2, "c1", 10, 1, none⟩ wCust wNow wAfter1).1.isOk = true ∧
    (rate_booking 3 ⟨3, "c1", 10, 2, none⟩ wCust wNow wAfter2).1.isOk = true ∧
    (wAfter3.service_providers.find? (fun p => p.id == 10)).map
      (fun p => (p.rating, p.total_ratings)) = some (some (mkRat 133 100), some 3) ∧
    ((1 : ℚ) + 1 + 2) / 3 = mkRat 4 3 ∧
    mkRat 133 100 ≠ mkRat 4 3 :=
  ⟨by decide, by decide, by decide, by decide, by decide, by decide⟩

/-- Witness for the amended C5 theorem: the third rating (score 2) on
stored aggregate (1.0, 2) yields count 3 and stored average
`round2((1*2+2)/3) = 1.33`. -/
theorem aggregate_step_witness :
    wAfter2.bookings.find? (fun b => b.id == 3) = some wBk3 ∧
    (wAfter3.service_providers.find? (fun q => q.id == wBk3.provider_id)).map
      (fun p => p.rating) = some (some (mkRat 133 100)) :=
  ⟨by decide, by
    have hstep := rate_booking_aggregate_step 3 ⟨3, "c1", 10, 2, none⟩ wCust wNow wAfter2
      ((rate_booking 3 ⟨3, "c1", 10, 2, none⟩ wCust wNow wAfter2).1.toOption.getD wRateDoc)
      wAfter3 wBk3
      { wProv with rating := some 1, total_ratings := some 2, updated_at := some wNow }
      (by decide) (by decide) (by decide)
    rw [show wAfter3.service_providers.find? (fun q => q.id == wBk3.provider_id) = _ from hstep]
    decide⟩

/-- C10: when every precondition check of `rate_booking` passes but the
referenced provider document is absent, the rating is still inserted and
returned as a success, and the provider-aggregate update is silently
skipped — the caller sees no error and `service_providers` is
unchanged. -/
theorem missing_provider_rating_skipped (bid : Nat) (rd : RatingCreateReq)
    (u : UserCtx) (now : DateTime) (db : DB) (booking : BookingDoc)
    (heq : db.bookings.find? (fun b => b.id == bid) = some booking)
    (hrole : u.role = Role.customer) (hown : booking.customer_id = u.id)
    (hst : booking.status = BookingStatus.completed)
    (hdup : db.ratings.find? (fun x => x.booking_id == bid) = none)
    (hb : rd.booking_id = bid) (hc : rd.customer_id = u.id)
    (hpid : rd.provider_id = booking.provider_id)
    (hprov : db.service_providers.find? (fun q => q.id == booking.provider_id) = none) :
    ∃ doc, rate_booking bid rd u now db =
        (.ok doc, { db with ratings := db.ratings ++ [doc], nextId := db.nextId + 1 }) ∧
      doc.booking_id = bid ∧ doc.rating = rd.rating ∧
      ({ db with ratings := db.ratings ++ [doc], nextId := db.nextId + 1 } : DB).service_providers =
        db.service_providers := by
  refine ⟨{ id := db.nextId, booking_id := rd.booking_id, customer_id := rd.customer_id,
            provider_id := rd.provider_id, rating := rd.rating, comment := rd.comment,
            created_at := now }, ?_, hb, rfl, rfl⟩
  unfold rate_booking
  rw [heq]
  have hg : (!(u.role == Role.customer && booking.customer_id == u.id)) = false := by
    simp [hrole, hown]
  have hs : (booking.status != BookingStatus.completed) = false := by
    simp [hst]
  simp only [hg, hs, Bool.false_eq_true, if_false, hdup, Option.isSome_none]
  have hb' : (rd.booking_id != bid) = false := by simp [hb]
  have hc' : (rd.customer_id != u.id) = false := by simp [hc]
  have hp' : (rd.provider_id != booking.provider_id) = false := by simp [hpid]
  simp only [hb', hc', hp', Bool.false_eq_true, if_false]
  simp only [hprov]

/-- Witness for C10: a completed booking whose provider document is
missing from the store. -/
theorem missing_provider_rating_skipped_witness :
    (⟨[wBkDone], [], [], [], 20⟩ : DB).service_providers.find?
      (fun q => q.id == wBkDone.provider_id) = none ∧
    ∃ doc, rate_booking 1 wRate wCust wNow ⟨[wBkDone], [], [], [], 20⟩ =
        (.ok doc, { (⟨[wBkDone], [], [], [], 20⟩ : DB) with
          ratings := [doc], nextId := 21 }) ∧
      doc.booking_id = 1 ∧ doc.rating = wRate.rating ∧
      ({ (⟨[wBkDone], [], [], [], 20⟩ : DB) with
          ratings := [doc], nextId := 21 } : DB).service_providers = [] :=
  ⟨by decide,
   missing_provider_rating_skipped 1 wRate wCust wNow ⟨[wBkDone], [], [], [], 20⟩ wBkDone
     (by decide) rfl rfl rfl (by decide) rfl rfl rfl (by decide)⟩

/-- The dedup key filter of `whatsapp_webhook`. -/
def convKey (source messageId : String) (c : ConvDoc) : Bool :=
  c.source == source && c.message_id == messageId

theorem conv_insert_update {db : DB} (key : ConvDoc → Bool) (hwf : WfConvs db)
    (hnew : db.conversations.find? key = none) (doc : ConvDoc)
    (hdocid : doc.id = db.nextId) (f : ConvDoc → ConvDoc) (hkeyf : key (f doc) = true) :
    updateFirst (fun c => c.id == doc.id) f (db.conversations ++ [doc]) =
      db.conversations ++ [f doc] ∧
    (updateFirst (fun c => c.id == doc.id) f (db.conversations ++ [doc])).find? key =
      some (f doc) := by
  have hold : ∀ x ∈ db.conversations, (fun c => c.id == doc.id) x = false := by
    intro x hx
    have := hwf.1 x hx
    simp only [beq_eq_false_iff_ne, ne_eq, hdocid]
    omega
  have hupd := updateFirst_append_singleton doc f hold
  rw [if_pos (by simp)] at hupd
  refine ⟨hupd, ?_⟩
  rw [hupd, find?_append_singleton _ hnew, if_pos hkeyf]

/-- C9: when the Responder Adapter raises after the `received` record
was created, the handler catches the exception, marks the record
`processing_status = "failed"` with the error captured and the fallback
reply stored, and returns a degraded success payload (`success = false`,
the fixed fallback reply, `error = "internal_error"`) instead of
propagating a hard failure. -/
theorem responder_failure_recovery (agent : AgentFun) (jsonF : String → Option String)
    (msg : WaMsg) (db : DB) (e : String)
    (hwf : WfConvs db)
    (hmsg : pyStrip msg.message ≠ "")
    (hnew : db.conversations.find? (convKey msg.source msg.messageId) = none)
    (hagent : agent (pyStrip msg.message)
      ("whatsapp_" ++ extract_phone_number msg.sender) = .error e) :
    ∃ resp db2, whatsapp_webhook agent jsonF msg db = (.ok resp, db2) ∧
      resp.success = false ∧ resp.reply_text = some DEFAULT_ERROR_REPLY ∧
      resp.error = some "internal_error" ∧ resp.deduplicated = false ∧
      ∃ c, db2.conversations.find? (convKey msg.source msg.messageId) = some c ∧
        c.processing_status = "failed" ∧ c.processing_error = some e ∧
        c.response = some DEFAULT_ERROR_REPLY := by
  have hms : (pyStrip msg.message == "") = false := by
    simp only [beq_eq_false_iff_ne, ne_eq]
    exact hmsg
  unfold whatsapp_webhook
  simp only [hms, Bool.false_eq_true, if_false]
  rw [show db.conversations.find? (fun c =>
      c.source == msg.source && c.message_id == msg.messageId) = none from hnew]
  rw [hagent]
  obtain ⟨hupd, hfind⟩ := conv_insert_update (convKey msg.source msg.messageId)
    hwf hnew
    ({ id := db.nextId, user_id := extract_phone_number msg.sender, message := pyStrip msg.message, timestamp := msg.timestamp, source := msg.source, sender := msg.sender, message_id := msg.messageId, processing_status := "received", response := none, agent_success := none, action_group := none, agent_error := none, processing_error := none } : ConvDoc)
    rfl
    (fun c => { c with response := some DEFAULT_ERROR_REPLY, processing_error := some e, processing_status := "failed" })
    (by simp [convKey])
  refine ⟨_, _, rfl, rfl, rfl, rfl, rfl, ?_⟩
  exact ⟨({ id := db.nextId, user_id := extract_phone_number msg.sender, message := pyStrip msg.message, timestamp := msg.timestamp, source := msg.source, sender := msg.sender, message_id := msg.messageId, processing_status := "failed", response := some DEFAULT_ERROR_REPLY, agent_success := none, action_group := none, agent_error := none, processing_error := some e } : ConvDoc),
    by simpa using hfind, rfl, rfl, rfl⟩

def wAgentFail : AgentFun := fun _ _ => .error "Bedrock down"

def wAgentHello : AgentFun := fun _ _ => .ok ⟨true, some "Hello there", none, none⟩

def wJson : String → Option String := fun _ => none

def wMsg1 : WaMsg := ⟨"p@x.net", "need a plumber", "m1", "t1", "whatsapp"⟩

/-- Witness for C9 with a concrete raising responder. -/
theorem responder_failure_recovery_witness :
    WfConvs wDb0 ∧ pyStrip wMsg1.message ≠ "" ∧
    wDb0.conversations.find? (convKey wMsg1.source wMsg1.messageId) = none ∧
    ∃ resp db2, whatsapp_webhook wAgentFail wJson wMsg1 wDb0 = (.ok resp, db2) ∧
      resp.success = false ∧ resp.reply_text = some DEFAULT_ERROR_REPLY ∧
      resp.error = some "internal_error" ∧ resp.deduplicated = false ∧
      ∃ c, db2.conversations.find? (convKey wMsg1.source wMsg1.messageId) = some c ∧
        c.processing_status = "failed" ∧ c.processing_error = some "Bedrock down" ∧
        c.response = some DEFAULT_ERROR_REPLY :=
  ⟨by unfold WfConvs; decide, by decide, by decide,
   responder_failure_recovery wAgentFail wJson wMsg1 wDb0 "Bedrock down"
     (by unfold WfConvs; decide) (by decide) (by decide) rfl⟩

theorem pyOrStr_some_of_ne {s : String} (d : String) (h : s ≠ "") :
    pyOrStr (some s) d = s := by
  unfold pyOrStr
  simp [h]

theorem normalize_agent_reply_ne_empty (jsonF : String → Option String)
    (ar : AgentResponse) : normalize_agent_reply jsonF ar ≠ "" := by
  unfold normalize_agent_reply
  split
  · decide
  · dsimp only
    split
    · decide
    · rename_i hraw
      have hraw' : pyStrip (pyOrStr ar.response "") ≠ "" := by simpa using hraw
      split
      · split
        · rename_i hcand
          split
          · rename_i hg
            simpa using hg
          · exact hraw'
        · exact hraw'
      · exact hraw'

/-- C3 (amended): for two `handleInboundMessage` calls with the same
`(source, externalMessageId)` where the second call's body is not
blank, if the first call returns (success or degraded success), the
second call hits the dedup branch: its result is independent of the
responder (so the Responder Adapter is invoked at most once across the
pair), it leaves the store unchanged, reports `deduplicated = true`,
and replies with exactly the first call's stored reply.  The claim as
frozen fails only for a blank second body, which is rejected with
InvalidInput *before* the dedup lookup. -/
theorem dedup_idempotent (a1 : AgentFun) (j1 : String → Option String)
    (msg1 msg2 : WaMsg) (db db1 : DB) (r1 : WaResponse)
    (hwf : WfConvs db)
    (hsrc : msg2.source = msg1.source) (hmid : msg2.messageId = msg1.messageId)
    (hblank2 : pyStrip msg2.message ≠ "")
    (h1 : whatsapp_webhook a1 j1 msg1 db = (.ok r1, db1)) :
    ∃ r2, (∀ a2 j2, whatsapp_webhook a2 j2 msg2 db1 = (.ok r2, db1)) ∧
      r2.deduplicated = true ∧ r2.reply_text = r1.reply_text := by
  have hms2 : (pyStrip msg2.message == "") = false := by simpa using hblank2
  unfold whatsapp_webhook at h1
  split at h1
  · cases h1
  · split at h1
    · rename_i ex hex
      cases h1
      refine ⟨{ success := true, message := some "Duplicate message already processed",
                reply_text := some (pyOrStr ex.response DEFAULT_ERROR_REPLY),
                conversation_id := some ex.id, message_id := some msg2.messageId,
                deduplicated := true, error := none }, ?_, rfl, rfl⟩
      intro a2 j2
      unfold whatsapp_webhook
      simp only [hms2, Bool.false_eq_true, if_false]
      rw [hsrc, hmid, hex]
    · rename_i hnon
      dsimp only at h1
      split at h1
      · rename_i ar hag
        cases h1
        obtain ⟨hupd, hfind⟩ := conv_insert_update (convKey msg1.source msg1.messageId)
          hwf hnon
          ({ id := db.nextId, user_id := extract_phone_number msg1.sender, message := pyStrip msg1.message, timestamp := msg1.timestamp, source := msg1.source, sender := msg1.sender, message_id := msg1.messageId, processing_status := "received", response := none, agent_success := none, action_group := none, agent_error := none, processing_error := none } : ConvDoc)
          rfl
          (fun c => { c with response := some (normalize_agent_reply j1 ar), agent_success := some ar.success, action_group := ar.action_group, agent_error := ar.error_message, processing_status := "completed" })
          (by simp [convKey])
        have hfind' : List.find? (fun c =>
            c.source == msg1.source && c.message_id == msg1.messageId)
            (updateFirst (fun c => c.id == db.nextId)
              (fun c => { c with response := some (normalize_agent_reply j1 ar), agent_success := some ar.success, action_group := ar.action_group, agent_error := ar.error_message, processing_status := "completed" })
              (db.conversations ++ [({ id := db.nextId, user_id := extract_phone_number msg1.sender, message := pyStrip msg1.message, timestamp := msg1.timestamp, source := msg1.source, sender := msg1.sender, message_id := msg1.messageId, processing_status := "received", response := none, agent_success := none, action_group := none, agent_error := none, processing_error := none } : ConvDoc)])) =
            some ({ id := db.nextId, user_id := extract_phone_number msg1.sender, message := pyStrip msg1.message, timestamp := msg1.timestamp, source := msg1.source, sender := msg1.sender, message_id := msg1.messageId, processing_status := "completed", response := some (normalize_agent_reply j1 ar), agent_success := some ar.success, action_group := ar.action_group, agent_error := ar.error_message, processing_error := none } : ConvDoc) := hfind
        refine ⟨{ success := true, message := some "Duplicate message already processed",
                  reply_text := some (normalize_agent_reply j1 ar),
                  conversation_id := some db.nextId, message_id := some msg2.messageId,
                  deduplicated := true, error := none }, ?_, rfl, rfl⟩
        intro a2 j2
        unfold whatsapp_webhook
        simp only [hms2, Bool.false_eq_true, if_false]
        rw [hsrc, hmid, hfind']
        dsimp only
        rw [pyOrStr_some_of_ne DEFAULT_ERROR_REPLY (normalize_agent_reply_ne_empty j1 ar)]
      · rename_i e hag
        cases h1
        obtain ⟨hupd, hfind⟩ := conv_insert_update (convKey msg1.source msg1.messageId)
          hwf hnon
          ({ id := db.nextId, user_id := extract_phone_number msg1.sender, message := pyStrip msg1.message, timestamp := msg1.timestamp, source := msg1.source, sender := msg1.sender, message_id := msg1.messageId, processing_status := "received", response := none, agent_success := none, action_group := none, agent_error := none, processing_error := none } : ConvDoc)
          rfl
          (fun c => { c with response := some DEFAULT_ERROR_REPLY, processing_error := some e, processing_status := "failed" })
          (by simp [convKey])
        have hfind' : List.find? (fun c =>
            c.source == msg1.source && c.message_id == msg1.messageId)
            (updateFirst (fun c => c.id == db.nextId)
              (fun c => { c with response := some DEFAULT_ERROR_REPLY, processing_error := some e, processing_status := "failed" })
              (db.conversations ++ [({ id := db.nextId, user_id := extract_phone_number msg1.sender, message := pyStrip msg1.message, timestamp := msg1.timestamp, source := msg1.source, sender := msg1.sender, message_id := msg1.messageId, processing_status := "received", response := none, agent_success := none, action_group := none, agent_error := none, processing_error := none } : ConvDoc)])) =
            some ({ id := db.nextId, user_id := extract_phone_number msg1.sender, message := pyStrip msg1.message, timestamp := msg1.timestamp, source := msg1.source, sender := msg1.sender, message_id := msg1.messageId, processing_status := "failed", response := some DEFAULT_ERROR_REPLY, agent_success := none, action_group := none, agent_error := none, processing_error := some e } : ConvDoc) := hfind
        refine ⟨{ success := true, message := some "Duplicate message already processed",
                  reply_text := some DEFAULT_ERROR_REPLY,
                  conversation_id := some db.nextId, message_id := some msg2.messageId,
                  deduplicated := true, error := none }, ?_, rfl, rfl⟩
        intro a2 j2
        unfold whatsapp_webhook
        simp only [hms2, Bool.false_eq_true, if_false]
        rw [hsrc, hmid, hfind']
        dsimp only
        rw [pyOrStr_some_of_ne DEFAULT_ERROR_REPLY (by decide)]

def wMsgBlank : WaMsg := ⟨"p@x.net", "  ", "m1", "t1", "whatsapp"⟩

/-- C3 counterexample: after a first successfully processed call for
`(whatsapp, m1)`, a second delivery with the same key but a blank body is
rejected with InvalidInput by the empty-message guard, which runs
*before* the dedup lookup: the second call does not return
`deduplicated = true` with the stored reply, refuting the claim as
universally stated over pairs of calls with the same key. -/
theorem dedup_idempotent_counterexample :
    wMsgBlank.source = wMsg1.source ∧ wMsgBlank.messageId = wMsg1.messageId ∧
    (whatsapp_webhook wAgentHello wJson wMsg1 wDb0).1.map (fun r => r.deduplicated) =
      .ok false ∧
    whatsapp_webhook wAgentHello wJson wMsgBlank
        (whatsapp_webhook wAgentHello wJson wMsg1 wDb0).2 =
      (.error .invalidInput, (whatsapp_webhook wAgentHello wJson wMsg1 wDb0).2) :=
  ⟨rfl, rfl, by decide, by decide⟩

def wResp1 : WaResponse :=
  { success := true, message := some "Message processed",
    reply_text := some "Hello there", conversation_id := some 20,
    message_id := some "m1", deduplicated := false, error := none }

/-- Witness for the amended C3 theorem: a concrete first call followed
by an identical re-delivery. -/
theorem dedup_idempotent_witness :
    WfConvs wDb0 ∧ pyStrip wMsg1.message ≠ "" ∧
    whatsapp_webhook wAgentHello wJson wMsg1 wDb0 =
      (.ok wResp1, (whatsapp_webhook wAgentHello wJson wMsg1 wDb0).2) ∧
    ∃ r2, (∀ a2 j2, whatsapp_webhook a2 j2 wMsg1
        (whatsapp_webhook wAgentHello wJson wMsg1 wDb0).2 =
        (.ok r2, (whatsapp_webhook wAgentHello wJson wMsg1 wDb0).2)) ∧
      r2.deduplicated = true ∧ r2.reply_text = wResp1.reply_text :=
  ⟨by unfold WfConvs; decide, by decide, by decide,
   dedup_idempotent wAgentHello wJson wMsg1 wMsg1 wDb0
     (whatsapp_webhook wAgentHello wJson wMsg1 wDb0).2 wResp1
     (by unfold WfConvs; decide) rfl rfl (by decide) (by decide)⟩
